import Mathlib

/-!
Shallow embedding of the Rate Forecasting and Competitive Insight Engine
(services/ml_forecasting.py of the repository), together with proofs that
settle the specification claims against it.

Modelling conventions:
* rates and all numeric values are rationals (exact arithmetic over the
  decimal literals appearing in the code);
* the external square-root routine used by the feature scaler is passed in
  as an explicit function argument, since no claim depends on its values;
* fallible Python code is embedded as `Except` / `Option` values;
* dates are natural-number day indices (only their order matters).
-/

namespace HotelRateIntel

/-! ## Data model (dataclasses, lines 27-40) -/

/-- The ForecastResult dataclass (lines 27-33): one forecast point. -/
structure ForecastResult where
  date : Nat
  predicted_rate : ℚ
  confidence_lower : ℚ
  confidence_upper : ℚ
  model_name : String
  deriving DecidableEq, Repr, Inhabited

/-- The ModelMetrics dataclass (lines 35-40). -/
structure ModelMetrics where
  mae : ℚ
  mse : ℚ
  rmse : ℚ
  mape : ℚ
  deriving DecidableEq, Repr, Inhabited

/-! ## Forecast assembly (forecast_rates, lines 382-434) -/

/-- Lines 412-420 of forecast_rates: each Random Forest point prediction
pred is wrapped into a ForecastResult with the synthetic band
confidence_lower = pred * 0.9 and confidence_upper = pred * 1.1. -/
def mkRFForecasts (dates : List Nat) (preds : List ℚ) : List ForecastResult :=
  (dates.zip preds).map fun dp =>
    { date := dp.1
      predicted_rate := dp.2
      confidence_lower := dp.2 * (9 / 10)
      confidence_upper := dp.2 * (11 / 10)
      model_name := "Random Forest" }

/-- One row of the frame returned by the external Prophet library:
point forecast yhat and its native uncertainty bounds. -/
structure ProphetRow where
  ds : Nat
  yhat : ℚ
  yhat_lower : ℚ
  yhat_upper : ℚ
  deriving DecidableEq, Repr

/-- ProphetForecastingModel.predict, lines 279-290: every library row is
copied verbatim into a ForecastResult (yhat, yhat_lower, yhat_upper). -/
def prophetPredictResults (rows : List ProphetRow) : List ForecastResult :=
  rows.map fun r =>
    { date := r.ds
      predicted_rate := r.yhat
      confidence_lower := r.yhat_lower
      confidence_upper := r.yhat_upper
      model_name := "Prophet" }

/-- ForecastingService.forecast_rates, lines 382-434: the Random Forest
segment (present when an artifact is loadable) is concatenated with the
Prophet segment (present when the library is available and trained);
failures of either segment are caught and that segment is simply omitted. -/
def forecast_rates (rfLoaded : Bool) (dates : List Nat) (rfPreds : List ℚ)
    (prophetReady : Bool) (prophetRows : List ProphetRow) : List ForecastResult :=
  (if rfLoaded then mkRFForecasts dates rfPreds else []) ++
    (if prophetReady then prophetPredictResults prophetRows else [])

/-! ## Market insights (get_market_insights, lines 436-511) -/

/-- One row of the competitor frame built at lines 458-466. -/
structure MarketRow where
  hotel_name : String
  rate : ℚ
  is_target_hotel : Bool
  deriving DecidableEq, Repr

/-- Mean of a pandas Series (only applied to nonempty series below). -/
def seriesMean (l : List ℚ) : ℚ := l.sum / l.length

/-- Minimum of a nonempty pandas Series. -/
def seriesMin : List ℚ → ℚ
  | [] => 0
  | h :: t => t.foldl min h

/-- Maximum of a nonempty pandas Series. -/
def seriesMax : List ℚ → ℚ
  | [] => 0
  | h :: t => t.foldl max h

/-- The insights dictionary assembled at lines 473-480. -/
structure MarketInsights where
  avg_rate : ℚ
  competitor_avg_rate : ℚ
  rate_advantage : ℚ
  market_position : ℚ
  price_percentile : ℚ
  recommendations : List String
  deriving DecidableEq, Repr

/-- Python runtime errors raised by the expression at line 478. -/
inductive PyError where
  | typeError
  | attributeError
  deriving DecidableEq, Repr

/-- Line 478: the expression float(target_rates.mean() > competitor_rates).mean().
The comparison of the scalar mean with the competitor Series yields a boolean
Series; float(series) is a TypeError unless the series has exactly one element,
and in the one-element case the result is a Python float, whose .mean()
attribute access is an AttributeError. The expression therefore raises
unconditionally. -/
def pricePercentileExpr (_targetMean : ℚ) (competitorRates : List ℚ) : Except PyError ℚ :=
  if competitorRates.length = 1 then Except.error PyError.attributeError
  else Except.error PyError.typeError

/-- ForecastingService._generate_recommendations, lines 491-511. -/
def generate_recommendations (target_rate : ℚ) (competitor_rates : List ℚ) : List String :=
  let competitor_avg := seriesMean competitor_rates
  let competitor_min := seriesMin competitor_rates
  let competitor_max := seriesMax competitor_rates
  (if target_rate > competitor_avg * (11 / 10) then
    ["Consider reducing rates to be more competitive"]
  else if target_rate < competitor_avg * (9 / 10) then
    ["Opportunity to increase rates while remaining competitive"]
  else
    ["Current pricing is well-positioned vs competitors"]) ++
  (if target_rate > competitor_max then
    ["You\x27re pricing above all competitors - monitor demand closely"]
  else if target_rate < competitor_min then
    ["You\x27re pricing below all competitors - potential revenue opportunity"]
  else [])

/-- ForecastingService.get_market_insights, lines 436-489, after the database
reads: hotelFound is the line 442-444 lookup, rows is the line 449-466 frame
(target rows included, since the query filters only on location). The body is
wrapped in a try/except that logs and falls through to return the empty dict,
so the unconditional exception raised while building the price_percentile
entry (line 478) makes the function return the empty dict whenever both a
target series and a competitor series exist. Absent result is modelled as
none. -/
def get_market_insights (hotelFound : Bool) (rows : List MarketRow) :
    Option MarketInsights :=
  if hotelFound = false then none
  else if rows.length = 0 then none
  else
    let target := (rows.filter fun r => r.is_target_hotel).map MarketRow.rate
    let comp := (rows.filter fun r => !r.is_target_hotel).map MarketRow.rate
    if 0 < target.length ∧ 0 < comp.length then
      match pricePercentileExpr (seriesMean target) comp with
      | Except.error _ => none
      | Except.ok pp =>
          some { avg_rate := seriesMean target
                 competitor_avg_rate := seriesMean comp
                 rate_advantage := seriesMean target - seriesMean comp
                 market_position := seriesMean target / seriesMean comp
                 price_percentile := pp
                 recommendations := generate_recommendations (seriesMean target) comp }
    else none

/-! ## Feature pipeline: lag features and the generic fill policy
(FeatureEngineering.add_lag_features lines 69-78, prepare_data line 134) -/

/-- Pandas shift(L) on the date-sorted rate column (line 76): position i holds
the value L positions earlier, and the first L positions are missing. -/
def shiftList (l : List ℚ) (L : Nat) : List (Option ℚ) :=
  (List.range l.length).map fun i => if L ≤ i then l.get? (i - L) else none

/-- Forward fill carrying the most recent defined value (first half of the
fillna chain at line 134). -/
def ffillFrom (last : Option ℚ) : List (Option ℚ) → List (Option ℚ)
  | [] => []
  | none :: t => last :: ffillFrom last t
  | some v :: t => some v :: ffillFrom (some v) t

/-- Pandas fillna(method = ffill) over one column. -/
def ffill (l : List (Option ℚ)) : List (Option ℚ) := ffillFrom none l

/-- Pandas fillna(0), the second half of the fill chain at line 134. -/
def fillZero (l : List (Option ℚ)) : List ℚ := l.map fun o => o.getD 0

/-- The lag-L feature column as produced by the pipeline: shift on the
date-sorted rates, then forward fill, then zero fill. -/
def lagFeatureColumn (rates : List ℚ) (L : Nat) : List ℚ :=
  fillZero (ffill (shiftList rates L))

/-! ## Feature scaling and the chronological split
(RandomForestForecastingModel.train, lines 184-206) -/

/-- The fitted state of the sklearn StandardScaler: per-column mean and
variance computed from the data passed to fit. -/
structure Scaler where
  means : List ℚ
  vars : List ℚ
  deriving DecidableEq, Repr

/-- Mean of one feature column. -/
def colMean (col : List ℚ) : ℚ := col.sum / col.length

/-- Population variance of one feature column. -/
def colVar (col : List ℚ) : ℚ :=
  ((col.map fun x => (x - colMean col) ^ 2).sum) / col.length

/-- StandardScaler.fit on a matrix with k feature columns: records per-column
mean and variance of exactly the rows it is given. -/
def fitScaler (k : Nat) (Xtr : List (List ℚ)) : Scaler :=
  { means := (List.range k).map fun j => colMean (Xtr.map fun row => row.getD j 0)
    vars := (List.range k).map fun j => colVar (Xtr.map fun row => row.getD j 0) }

/-- The scale the StandardScaler divides by: the square root of the variance,
with exact zeros replaced by 1. The numeric square-root routine is supplied
by the caller since no claim depends on its values. -/
def scaleOf (sqrt : ℚ → ℚ) (v : ℚ) : ℚ := if sqrt v = 0 then 1 else sqrt v

/-- StandardScaler.transform of one row with previously fitted statistics. -/
def transformRow (sqrt : ℚ → ℚ) (s : Scaler) (row : List ℚ) : List ℚ :=
  (List.range s.means.length).map fun j =>
    (row.getD j 0 - s.means.getD j 0) / scaleOf sqrt (s.vars.getD j 0)

/-- Line 189: train_size = int(0.8 * len(X)). The double nearest to 0.8 is
4/5 + 2^(-54.3); for every list length n the product in float arithmetic
truncates to the same integer as exact 4n/5, so the Python expression is
embedded as natural-number division 4n/5. -/
def trainSize (n : Nat) : Nat := 4 * n / 5

/-- Everything the fit at lines 188-199 produces. -/
structure RFTrainState where
  scaler : Scaler
  xTrainScaled : List (List ℚ)
  xTestScaled : List (List ℚ)
  yTrain : List ℚ
  yTest : List ℚ
  deriving DecidableEq, Repr

/-- Lines 188-195 of RandomForestForecastingModel.train, applied to the
prepared feature matrix X and target y (already in ascending date order,
prepare_data having sorted them): positional 80/20 split, scaler fit on the
training rows only, both splits transformed with those statistics. -/
def rfTrainSplit (sqrt : ℚ → ℚ) (k : Nat) (X : List (List ℚ)) (y : List ℚ) :
    RFTrainState :=
  let ts := trainSize X.length
  let xtr := X.take ts
  let xte := X.drop ts
  let s := fitScaler k xtr
  { scaler := s
    xTrainScaled := xtr.map (transformRow sqrt s)
    xTestScaled := xte.map (transformRow sqrt s)
    yTrain := y.take ts
    yTest := y.drop ts }

/-- The same training step over labelled rows (date, features, target). -/
def rfTrain (sqrt : ℚ → ℚ) (k : Nat) (rows : List (Nat × List ℚ × ℚ)) :
    RFTrainState :=
  rfTrainSplit sqrt k (rows.map fun r => r.2.1) (rows.map fun r => r.2.2)

/-- The rows the split assigns to training: the positional 80 percent head. -/
def trainRows (rows : List (Nat × List ℚ × ℚ)) : List (Nat × List ℚ × ℚ) :=
  rows.take (trainSize rows.length)

/-- The rows the split holds out for evaluation: the positional tail. -/
def testRows (rows : List (Nat × List ℚ × ℚ)) : List (Nat × List ℚ × ℚ) :=
  rows.drop (trainSize rows.length)

/-- Failure modes of the training step. The code of train (lines 184-206)
contains no raise of its own and in particular no minimum-observation check;
insufficientData exists in this type only so that its absence from every
reachable outcome can be stated. The one failure an extreme input can force
is sklearn rejecting a fit on an empty training split. -/
inductive TrainFailure where
  | insufficientData
  | emptyFit
  deriving DecidableEq, Repr

/-- RandomForestForecastingModel.train as a fallible call: fails only when
the 80 percent split is empty (fit on zero samples), otherwise returns the
fitted state. -/
def rfTrainRun (sqrt : ℚ → ℚ) (k : Nat) (rows : List (Nat × List ℚ × ℚ)) :
    Except TrainFailure RFTrainState :=
  if trainSize rows.length = 0 then Except.error TrainFailure.emptyFit
  else Except.ok (rfTrain sqrt k rows)

/-- True exactly when the outcome is an insufficient-data failure. -/
def isInsufficientDataError : Except TrainFailure RFTrainState → Bool
  | Except.error TrainFailure.insufficientData => true
  | _ => false

/-- Lines 358-365 of train_models: save_model is called (and the artifact
persisted) exactly when train returned normally; save_model itself has no
guard. -/
def rfArtifactPersisted : Except TrainFailure RFTrainState → Bool
  | Except.ok _ => true
  | Except.error _ => false

/-- Outcome of ProphetForecastingModel.train, lines 236-265. -/
inductive ProphetOutcome where
  | unavailableSkip
  | fitted
  | fitError
  deriving DecidableEq, Repr

/-- ProphetForecastingModel.train: when the library is absent it returns
None without touching the data (lines 238-240); otherwise it sorts,
deduplicates by date and fits. The library itself (external) rejects a
history with fewer than 2 rows; the method adds no check of its own. -/
def prophetTrain (available : Bool) (series : List (Nat × ℚ)) : ProphetOutcome :=
  if available = false then ProphetOutcome.unavailableSkip
  else if ((series.map Prod.fst).dedup).length < 2 then ProphetOutcome.fitError
  else ProphetOutcome.fitted

/-! ## Model state, persistence and predict
(RateForecastingModel lines 111-170, RandomForestForecastingModel.predict
lines 208-217) -/

/-- One column of a pandas frame after feature engineering: its name,
whether its dtype is a 64-bit numeric one, and its values. -/
structure FrameCol where
  name : String
  isNumeric : Bool
  values : List ℚ
  deriving DecidableEq, Repr, Inhabited

/-- A pandas frame, as a list of columns. -/
abbrev Frame := List FrameCol

/-- Line 130: the columns excluded from the feature set. -/
def excludeCols : List String :=
  ["date", "rate", "hotel_id", "source", "room_type", "scraped_at"]

/-- Lines 130-131: keep the numeric, non-excluded columns. -/
def selectedCols (df : Frame) : Frame :=
  df.filter fun c => c.isNumeric && !(excludeCols.contains c.name)

/-- The feature-name list prepare_data computes from a frame (line 131). -/
def featureColumnsOf (df : Frame) : List String :=
  (selectedCols df).map FrameCol.name

/-- Row count of a frame. -/
def frameRows (df : Frame) : Nat := df.headI.values.length

/-- The feature matrix X = df[feature_cols] (line 138), row by row. -/
def featureMatrix (df : Frame) : List (List ℚ) :=
  (List.range (frameRows df)).map fun i =>
    (selectedCols df).map fun c => c.values.getD i 0

/-- The mutable attributes of a RateForecastingModel instance
(lines 114-119): the fitted regressor is embedded as a function from a
feature row to a prediction, None before any training. -/
structure RFModelState where
  model : Option (List ℚ → ℚ)
  scaler : Scaler
  feature_columns : List String
  model_name : String
  is_trained : Bool

/-- The joblib artifact written by save_model (lines 151-160): exactly the
four entries of the model_data dictionary, is_trained not among them. -/
structure ModelArtifact where
  model : Option (List ℚ → ℚ)
  scaler : Scaler
  feature_columns : List String
  model_name : String

/-- RateForecastingModel.save_model, lines 151-160. -/
def save_model (s : RFModelState) : ModelArtifact :=
  { model := s.model
    scaler := s.scaler
    feature_columns := s.feature_columns
    model_name := s.model_name }

/-- RateForecastingModel.load_model, lines 162-170: restores the four saved
attributes and sets is_trained to True. -/
def load_model (_s : RFModelState) (a : ModelArtifact) : RFModelState :=
  { model := a.model
    scaler := a.scaler
    feature_columns := a.feature_columns
    model_name := a.model_name
    is_trained := true }

/-- How a predict call can fail. schemaMismatch exists in this type only so
that its absence from every reachable outcome can be stated: the code never
compares the incoming feature names with the trained ones. The scaler
(external sklearn, modelled at array level) rejects a transform whose column
count differs from the fitted one. -/
inductive PredictError where
  | notTrained
  | schemaMismatch
  | scalerDimMismatch
  | noModelObject
  deriving DecidableEq, Repr

/-- RandomForestForecastingModel.predict, lines 208-217: guard on
is_trained, then prepare_data recomputes the feature columns from the
incoming frame (overwriting the stored list), scales with the stored
statistics and applies the fitted regressor. -/
def rfPredict (sqrt : ℚ → ℚ) (s : RFModelState) (df : Frame) :
    Except PredictError (List ℚ) :=
  if s.is_trained = false then Except.error PredictError.notTrained
  else
    let cols := featureColumnsOf df
    let X := featureMatrix df
    if cols.length ≠ s.scaler.means.length then Except.error PredictError.scalerDimMismatch
    else
      match s.model with
      | none => Except.error PredictError.noModelObject
      | some f => Except.ok (X.map fun row => f (transformRow sqrt s.scaler row))

/-- The value of self.feature_columns after a predict call: line 136 inside
prepare_data overwrites it with the columns of the incoming frame (the
not-trained guard fires before prepare_data runs). -/
def featureColumnsAfterPredict (s : RFModelState) (df : Frame) : List String :=
  if s.is_trained = false then s.feature_columns else featureColumnsOf df

/-- True exactly when a predict outcome is the schema-mismatch failure. -/
def isSchemaMismatchError : Except PredictError (List ℚ) → Bool
  | Except.error PredictError.schemaMismatch => true
  | _ => false

/-- True exactly when a predict call returned predictions. -/
def predictSucceeded : Except PredictError (List ℚ) → Bool
  | Except.ok _ => true
  | _ => false

/-! ## Orchestration (ForecastingService.train_models, lines 348-380) -/

/-- train_models after the data fetch. Each variant is trained inside its
own try/except: the random_forest entry holds the metrics when both train
and the subsequent save return normally and is reassigned None when either
raises; the prophet entry holds train's return value (None when the library
is unavailable) or None when train raised. An empty frame short-circuits to
an empty map (lines 352-354). -/
def train_models (dfEmpty : Bool) (rfOutcome : Except String ModelMetrics)
    (saveOutcome : Except String Unit)
    (prophetOutcome : Except String (Option ModelMetrics)) :
    List (String × Option ModelMetrics) :=
  if dfEmpty then []
  else
    [("random_forest",
      match rfOutcome, saveOutcome with
      | Except.ok m, Except.ok _ => some m
      | _, _ => none),
     ("prophet",
      match prophetOutcome with
      | Except.ok m => m
      | Except.error _ => none)]

/-! ## Concrete states used by witnesses and counterexamples -/

/-- Three labelled observations (date, features, target). -/
def c2rows : List (Nat × List ℚ × ℚ) :=
  [(0, [100], 100), (1, [110], 110), (2, [120], 120)]

/-- A trained model state whose recorded schema is the single column year. -/
def c3TrainedState : RFModelState :=
  { model := some fun row => row.getD 0 0
    scaler := { means := [0], vars := [1] }
    feature_columns := ["year"]
    model_name := "Random Forest"
    is_trained := true }

/-- A frame whose single numeric column has a different name (month). -/
def c3RenamedFrame : Frame :=
  [{ name := "month", isNumeric := true, values := [5] }]

/-- A trained model state for the persistence round trip. -/
def c5TrainedState : RFModelState :=
  { model := some fun row => row.sum
    scaler := { means := [0], vars := [1] }
    feature_columns := ["year"]
    model_name := "Random Forest"
    is_trained := true }

/-- A freshly constructed, untrained state. -/
def c5FreshState : RFModelState :=
  { model := none
    scaler := { means := [], vars := [] }
    feature_columns := []
    model_name := "Random Forest"
    is_trained := false }

/-- A one-row frame with the single numeric column year. -/
def c5Frame : Frame := [{ name := "year", isNumeric := true, values := [2024] }]

/-! # Theorems settling the claims -/

/-- Auxiliary: forward fill never changes a position that is already
defined. -/
theorem ffillFrom_getElem?_some (s : List (Option ℚ)) :
    ∀ (last : Option ℚ) (i : Nat) (v : ℚ), s[i]? = some (some v) →
      (ffillFrom last s)[i]? = some (some v) := by
  induction s with
  | nil =>
    intro last i v h
    simp at h
  | cons hd t ih =>
    intro last i v h
    cases hd with
    | none =>
      cases i with
      | zero => simp at h
      | succ n =>
        simp only [ffillFrom, List.getElem?_cons_succ] at h ⊢
        exact ih last n v h
    | some w =>
      cases i with
      | zero =>
        simp only [List.getElem?_cons_zero, Option.some.injEq] at h
        simp [ffillFrom, h]
      | succ n =>
        simp only [ffillFrom, List.getElem?_cons_succ] at h ⊢
        exact ih (some w) n v h

/-- C1 is false as stated for the Random Forest variant: a negative point
prediction (reachable, since stored rates are unconstrained floats and the
regressor output lives in their range) makes the multiplicative band invert,
so confidence_lower exceeds predicted_rate. -/
theorem C1_counterexample :
    ¬ ((forecast_rates true [1] [-100] false []).headI.confidence_lower ≤
        (forecast_rates true [1] [-100] false []).headI.predicted_rate) := by
  norm_num [forecast_rates, mkRFForecasts, prophetPredictResults]

/-- C1 (amended): every ForecastPoint produced by forecast_rates satisfies
confidence_lower ≤ predicted_rate ≤ confidence_upper, provided each Random
Forest point prediction is nonnegative (the band is the multiplicative
envelope 0.9 pred and 1.1 pred) and each Prophet library row already
satisfies yhat_lower ≤ yhat ≤ yhat_upper (the code copies those fields
verbatim). -/
theorem C1_band_ordered_amended (rfLoaded prophetReady : Bool) (dates : List Nat)
    (rfPreds : List ℚ) (rows : List ProphetRow)
    (hrf : ∀ p ∈ rfPreds, 0 ≤ p)
    (hpr : ∀ r ∈ rows, r.yhat_lower ≤ r.yhat ∧ r.yhat ≤ r.yhat_upper) :
    ∀ fr ∈ forecast_rates rfLoaded dates rfPreds prophetReady rows,
      fr.confidence_lower ≤ fr.predicted_rate ∧
        fr.predicted_rate ≤ fr.confidence_upper := by
  intro fr hfr
  unfold forecast_rates at hfr
  rcases List.mem_append.mp hfr with h | h
  · split at h
    · obtain ⟨⟨d, p⟩, hdp, rfl⟩ := List.mem_map.mp h
      have hp : 0 ≤ p := hrf p (List.of_mem_zip hdp).2
      constructor
      · show p * (9 / 10) ≤ p
        linarith
      · show p ≤ p * (11 / 10)
        linarith
    · simp at h
  · split at h
    · obtain ⟨r, hr, rfl⟩ := List.mem_map.mp h
      exact hpr r hr
    · simp at h

/-- Witness for C1_band_ordered_amended at a nonnegative Random Forest
prediction and an ordered Prophet row. -/
theorem C1_band_ordered_amended_witness :
    (forecast_rates true [1] [100] true [⟨2, 50, 40, 60⟩]).headI.confidence_lower ≤
        (forecast_rates true [1] [100] true [⟨2, 50, 40, 60⟩]).headI.predicted_rate ∧
      (forecast_rates true [1] [100] true [⟨2, 50, 40, 60⟩]).headI.predicted_rate ≤
        (forecast_rates true [1] [100] true [⟨2, 50, 40, 60⟩]).headI.confidence_upper :=
  C1_band_ordered_amended true true [1] [100] [⟨2, 50, 40, 60⟩]
    (by intro p hp; rw [List.mem_singleton] at hp; subst hp; norm_num)
    (by
      intro r hr
      rw [List.mem_singleton] at hr
      subst hr
      exact ⟨by norm_num, by norm_num⟩)
    _ (by simp [forecast_rates, mkRFForecasts, prophetPredictResults])

/-- C10: every ForecastPoint assembled for the Random Forest variant carries
exactly the fixed multiplicative band: confidence_lower = 0.9 times the
predicted rate and confidence_upper = 1.1 times the predicted rate. -/
theorem C10_rf_band_fixed (dates : List Nat) (preds : List ℚ) :
    ∀ fr ∈ mkRFForecasts dates preds,
      fr.confidence_lower = fr.predicted_rate * (9 / 10) ∧
        fr.confidence_upper = fr.predicted_rate * (11 / 10) := by
  intro fr hfr
  obtain ⟨⟨d, p⟩, hdp, rfl⟩ := List.mem_map.mp hfr
  exact ⟨rfl, rfl⟩

/-- Witness for C10_rf_band_fixed at one concrete forecast point. -/
theorem C10_rf_band_fixed_witness :
    (mkRFForecasts [1] [100]).headI.confidence_lower =
        (mkRFForecasts [1] [100]).headI.predicted_rate * (9 / 10) ∧
      (mkRFForecasts [1] [100]).headI.confidence_upper =
        (mkRFForecasts [1] [100]).headI.predicted_rate * (11 / 10) :=
  C10_rf_band_fixed [1] [100] _ (by simp [mkRFForecasts])

/-- C6: when every fetched observation belongs to the target entity (zero
competitor observations), get_market_insights returns the empty result; the
embedding is a total function, matching the try/except that swallows every
exception and falls through to the empty dict. -/
theorem C6_no_competitors_empty (hotelFound : Bool) (rows : List MarketRow)
    (h : ∀ r ∈ rows, r.is_target_hotel = true) :
    get_market_insights hotelFound rows = none := by
  cases hotelFound with
  | false => rfl
  | true =>
    by_cases hr : rows.length = 0
    · simp [get_market_insights, hr]
    · have hcomp : (rows.filter fun r => !r.is_target_hotel) = [] := by
        rw [List.filter_eq_nil_iff]
        intro a ha
        simp [h a ha]
      simp [get_market_insights, hr, hcomp]

/-- Witness for C6_no_competitors_empty: a market whose only observation is
the target hotel itself. -/
theorem C6_no_competitors_empty_witness :
    get_market_insights true [⟨"Target Hotel", 100, true⟩] = none :=
  C6_no_competitors_empty true [⟨"Target Hotel", 100, true⟩] (by decide)

/-- C7: evaluation at the specified scenario (target average 100, one
competitor at 120). The recommendation rule in _generate_recommendations is
exactly the specified one and 100/120 = 5/6, but get_market_insights itself
returns the empty result: building the price_percentile entry at line 478
applies float() to a boolean Series and .mean() to a Python float, which
raises unconditionally, and the surrounding except swallows it. The code
therefore never returns the insights the claim describes. -/
theorem C7_insights_defect_eval :
    get_market_insights true
        [⟨"Grand Target", 100, true⟩, ⟨"Rival", 120, false⟩] = none ∧
      generate_recommendations 100 [120] =
        ["Opportunity to increase rates while remaining competitive",
          "You\x27re pricing below all competitors - potential revenue opportunity"] ∧
      (100 : ℚ) / 120 = 5 / 6 := by
  refine ⟨by decide, ?_, by norm_num⟩
  norm_num [generate_recommendations, seriesMean, seriesMin, seriesMax]

/-- C8: for every rate series (the strict-increase hypothesis of the claim is
carried but not needed), the lag-1 feature column produced by the pipeline
(shift, forward fill, zero fill) agrees at every position i with 1 ≤ i <
length with the raw rate at position i - 1, exactly. -/
theorem C8_lag1_exact (rates : List ℚ) (_hmono : List.Chain' (· < ·) rates)
    (i : Nat) (h1 : 1 ≤ i) (h2 : i < rates.length) :
    (lagFeatureColumn rates 1)[i]? = rates[i - 1]? := by
  have hi1 : i - 1 < rates.length := lt_of_le_of_lt (Nat.sub_le i 1) h2
  have hv : rates[i - 1]? = some rates[i - 1] := List.getElem?_eq_getElem hi1
  have hshift : (shiftList rates 1)[i]? = some (some rates[i - 1]) := by
    unfold shiftList
    rw [List.getElem?_map]
    rw [List.getElem?_range h2]
    simp [h1, hv]
  have hff := ffillFrom_getElem?_some (shiftList rates 1) none i rates[i - 1] hshift
  unfold lagFeatureColumn fillZero ffill
  rw [List.getElem?_map, hff]
  simp [hv]

/-- Witness for C8_lag1_exact on a strictly increasing three-point series at
position 2. -/
theorem C8_lag1_exact_witness :
    (lagFeatureColumn [10, 20, 30] 1)[2]? = ([10, 20, 30] : List ℚ)[2 - 1]? :=
  C8_lag1_exact [10, 20, 30] (by norm_num) 2 (by norm_num) (by norm_num)

/-- C4: the Ensemble Regression training step splits the time-ordered rows
positionally at 80 percent (train is the head, evaluation the tail, so with
a date-sorted input every training date precedes every evaluation date), fits
the scaler statistics on the training rows only and transforms the
evaluation rows with exactly those statistics. -/
theorem C4_chronological_split (sqrt : ℚ → ℚ) (k : Nat)
    (rows : List (Nat × List ℚ × ℚ))
    (hsorted : List.Sorted (fun a b => a.1 ≤ b.1) rows) :
    trainRows rows ++ testRows rows = rows ∧
    (trainRows rows).length = trainSize rows.length ∧
    ((trainRows rows).all fun a =>
      (testRows rows).all fun b => decide (a.1 ≤ b.1)) = true ∧
    (rfTrain sqrt k rows).scaler =
      fitScaler k ((trainRows rows).map fun r => r.2.1) ∧
    (rfTrain sqrt k rows).xTestScaled =
      ((testRows rows).map fun r => r.2.1).map
        (transformRow sqrt (fitScaler k ((trainRows rows).map fun r => r.2.1))) := by
  have hle : trainSize rows.length ≤ rows.length := by
    unfold trainSize
    omega
  refine ⟨List.take_append_drop _ _, ?_, ?_, ?_, ?_⟩
  · rw [trainRows, List.length_take]
    exact min_eq_left hle
  · simp only [List.all_eq_true, decide_eq_true_eq]
    intro a ha b hb
    have hs := hsorted
    rw [← List.take_append_drop (trainSize rows.length) rows] at hs
    exact (List.pairwise_append.mp hs).2.2 a ha b hb
  · simp only [rfTrain, rfTrainSplit, trainRows, List.length_map, List.map_take]
  · simp only [rfTrain, rfTrainSplit, trainRows, testRows, List.length_map,
      List.map_take, List.map_drop]

/-- Witness for C4_chronological_split on three date-sorted rows. -/
theorem C4_chronological_split_witness :
    trainRows c2rows ++ testRows c2rows = c2rows ∧
    (trainRows c2rows).length = trainSize c2rows.length ∧
    ((trainRows c2rows).all fun a =>
      (testRows c2rows).all fun b => decide (a.1 ≤ b.1)) = true ∧
    (rfTrain (fun q => q) 1 c2rows).scaler =
      fitScaler 1 ((trainRows c2rows).map fun r => r.2.1) ∧
    (rfTrain (fun q => q) 1 c2rows).xTestScaled =
      ((testRows c2rows).map fun r => r.2.1).map
        (transformRow (fun q => q) (fitScaler 1 ((trainRows c2rows).map fun r => r.2.1))) :=
  C4_chronological_split (fun q => q) 1 c2rows (by decide)

/-- C2 is false as stated: training on only 3 observations does not fail.
The Random Forest training step contains no minimum-observation check (the
outcome is not an insufficient-data failure), it returns normally on the
three rows, train_models therefore persists the artifact, the split is 2
training rows against 1 evaluation row, and Prophet fits three rows as well
instead of raising. -/
theorem C2_counterexample :
    isInsufficientDataError (rfTrainRun (fun q => q) 1 c2rows) = false ∧
    rfArtifactPersisted (rfTrainRun (fun q => q) 1 c2rows) = true ∧
    trainSize 3 = 2 ∧
    prophetTrain true [(0, 100), (1, 110), (2, 120)] = ProphetOutcome.fitted := by
  refine ⟨rfl, rfl, rfl, by decide⟩

/-- C2 (amended): no variant enforces a minimum-observation count and no
InsufficientDataError exists in the code; on any labelled set of exactly 3
observations the Random Forest training step succeeds with a 2-row training
split and a 1-row evaluation split, and train_models persists its artifact. -/
theorem C2_train3_succeeds (sqrt : ℚ → ℚ) (k : Nat)
    (rows : List (Nat × List ℚ × ℚ)) (h3 : rows.length = 3) :
    rfTrainRun sqrt k rows = Except.ok (rfTrain sqrt k rows) ∧
    isInsufficientDataError (rfTrainRun sqrt k rows) = false ∧
    rfArtifactPersisted (rfTrainRun sqrt k rows) = true ∧
    (trainRows rows).length = 2 ∧ (testRows rows).length = 1 := by
  have hts : trainSize rows.length = 2 := by rw [h3]; rfl
  have hrun : rfTrainRun sqrt k rows = Except.ok (rfTrain sqrt k rows) := by
    unfold rfTrainRun
    rw [hts]
    simp
  refine ⟨hrun, by rw [hrun]; rfl, by rw [hrun]; rfl, ?_, ?_⟩
  · rw [trainRows, List.length_take, hts, h3]
    omega
  · rw [testRows, List.length_drop, hts, h3]

/-- Witness for C2_train3_succeeds on three concrete observations. -/
theorem C2_train3_succeeds_witness :
    rfTrainRun (fun q => q) 1 c2rows = Except.ok (rfTrain (fun q => q) 1 c2rows) ∧
    isInsufficientDataError (rfTrainRun (fun q => q) 1 c2rows) = false ∧
    rfArtifactPersisted (rfTrainRun (fun q => q) 1 c2rows) = true ∧
    (trainRows c2rows).length = 2 ∧ (testRows c2rows).length = 1 :=
  C2_train3_succeeds (fun q => q) 1 c2rows (by decide)

/-- C3 is false as stated: predicting with a frame whose feature-name set
(month) differs from the recorded training schema (year) raises no
SchemaMismatchError; because the column counts agree the call succeeds
outright, and the stored schema is silently overwritten with the new one. -/
theorem C3_counterexample :
    featureColumnsOf c3RenamedFrame ≠ c3TrainedState.feature_columns ∧
    isSchemaMismatchError (rfPredict (fun q => q) c3TrainedState c3RenamedFrame) = false ∧
    predictSucceeded (rfPredict (fun q => q) c3TrainedState c3RenamedFrame) = true ∧
    featureColumnsAfterPredict c3TrainedState c3RenamedFrame = ["month"] := by
  refine ⟨by decide, rfl, rfl, rfl⟩

/-- C3 (amended): predict never compares the incoming feature names with the
training schema and never raises a schema-mismatch error. It recomputes the
feature set from the incoming frame, overwriting the stored schema; whenever
the recomputed column count matches the fitted scaler dimension the call
succeeds regardless of the names, and a count mismatch surfaces only as the
external scaler rejecting the transform. -/
theorem C3_no_schema_check (sqrt : ℚ → ℚ) (s : RFModelState) (df : Frame)
    (f : List ℚ → ℚ) (htr : s.is_trained = true) (hm : s.model = some f)
    (hlen : (featureColumnsOf df).length = s.scaler.means.length) :
    rfPredict sqrt s df =
      Except.ok ((featureMatrix df).map fun row => f (transformRow sqrt s.scaler row)) ∧
    isSchemaMismatchError (rfPredict sqrt s df) = false ∧
    featureColumnsAfterPredict s df = featureColumnsOf df := by
  have h1 : rfPredict sqrt s df =
      Except.ok ((featureMatrix df).map fun row => f (transformRow sqrt s.scaler row)) := by
    unfold rfPredict
    rw [htr, hm]
    simp [hlen]
  refine ⟨h1, by rw [h1]; rfl, ?_⟩
  unfold featureColumnsAfterPredict
  rw [htr]
  simp

/-- Witness for C3_no_schema_check: the trained state with schema year,
applied to the renamed one-column frame. -/
theorem C3_no_schema_check_witness :
    rfPredict (fun q => q) c3TrainedState c3RenamedFrame =
      Except.ok ((featureMatrix c3RenamedFrame).map fun row =>
        (fun r => r.getD 0 0) (transformRow (fun q => q) c3TrainedState.scaler row)) ∧
    isSchemaMismatchError (rfPredict (fun q => q) c3TrainedState c3RenamedFrame) = false ∧
    featureColumnsAfterPredict c3TrainedState c3RenamedFrame =
      featureColumnsOf c3RenamedFrame :=
  C3_no_schema_check (fun q => q) c3TrainedState c3RenamedFrame
    (fun r => r.getD 0 0) rfl rfl (by decide)

/-- C5: save followed by load restores the fitted regressor, the scaler
statistics and the feature schema unchanged, and for every trained model the
loaded copy produces exactly the predictions of the model that wrote the
artifact, on every input frame. -/
theorem C5_save_load_roundtrip (sqrt : ℚ → ℚ) (s sother : RFModelState)
    (df : Frame) (h : s.is_trained = true) :
    (load_model sother (save_model s)).model = s.model ∧
    (load_model sother (save_model s)).scaler = s.scaler ∧
    (load_model sother (save_model s)).feature_columns = s.feature_columns ∧
    rfPredict sqrt (load_model sother (save_model s)) df = rfPredict sqrt s df := by
  refine ⟨rfl, rfl, rfl, ?_⟩
  unfold rfPredict load_model save_model
  rw [h]

/-- Witness for C5_save_load_roundtrip: a concrete trained state written to
an artifact and reloaded over a fresh instance. -/
theorem C5_save_load_roundtrip_witness :
    (load_model c5FreshState (save_model c5TrainedState)).model = c5TrainedState.model ∧
    (load_model c5FreshState (save_model c5TrainedState)).scaler = c5TrainedState.scaler ∧
    (load_model c5FreshState (save_model c5TrainedState)).feature_columns =
      c5TrainedState.feature_columns ∧
    rfPredict (fun q => q) (load_model c5FreshState (save_model c5TrainedState)) c5Frame =
      rfPredict (fun q => q) c5TrainedState c5Frame :=
  C5_save_load_roundtrip (fun q => q) c5TrainedState c5FreshState c5Frame rfl

/-- C9: train_models reports per variant and isolates failures. With a
nonempty frame the returned map always carries exactly the random_forest and
prophet keys, whatever each variant did; the random_forest entry does not
depend on the prophet outcome; the prophet entry does not depend on the
random_forest outcome even when the latter raised; and a prophet exception
is reported as a None entry rather than propagated. -/
theorem C9_per_variant_isolation (rfOutcome : Except String ModelMetrics)
    (saveOutcome : Except String Unit)
    (prOutcome prOther : Except String (Option ModelMetrics)) (e : String)
    (hpr : prOutcome = Except.error e) :
    (train_models false rfOutcome saveOutcome prOutcome).map Prod.fst =
      ["random_forest", "prophet"] ∧
    (train_models false (Except.error e) saveOutcome prOther).map Prod.fst =
      ["random_forest", "prophet"] ∧
    (train_models false rfOutcome saveOutcome prOutcome).headI =
      (train_models false rfOutcome saveOutcome prOther).headI ∧
    (train_models false (Except.error e) saveOutcome prOther)[1]? =
      (train_models false rfOutcome saveOutcome prOther)[1]? ∧
    (train_models false rfOutcome saveOutcome prOutcome)[1]? =
      some ("prophet", none) := by
  subst hpr
  exact ⟨rfl, rfl, rfl, rfl, rfl⟩

/-- Witness for C9_per_variant_isolation: Random Forest succeeds and saves,
Prophet raises; the map still reports both variants. -/
theorem C9_per_variant_isolation_witness :
    (train_models false (Except.ok ⟨1, 1, 1, 1⟩) (Except.ok ())
        (Except.error "prophet unavailable")).map Prod.fst =
      ["random_forest", "prophet"] ∧
    (train_models false (Except.error "prophet unavailable") (Except.ok ())
        (Except.ok (some ⟨2, 2, 2, 2⟩))).map Prod.fst =
      ["random_forest", "prophet"] ∧
    (train_models false (Except.ok ⟨1, 1, 1, 1⟩) (Except.ok ())
        (Except.error "prophet unavailable")).headI =
      (train_models false (Except.ok ⟨1, 1, 1, 1⟩) (Except.ok ())
        (Except.ok (some ⟨2, 2, 2, 2⟩))).headI ∧
    (train_models false (Except.error "prophet unavailable") (Except.ok ())
        (Except.ok (some ⟨2, 2, 2, 2⟩)))[1]? =
      (train_models false (Except.ok ⟨1, 1, 1, 1⟩) (Except.ok ())
        (Except.ok (some ⟨2, 2, 2, 2⟩)))[1]? ∧
    (train_models false (Except.ok ⟨1, 1, 1, 1⟩) (Except.ok ())
        (Except.error "prophet unavailable"))[1]? = some ("prophet", none) :=
  C9_per_variant_isolation (Except.ok ⟨1, 1, 1, 1⟩) (Except.ok ())
    (Except.error "prophet unavailable") (Except.ok (some ⟨2, 2, 2, 2⟩))
    "prophet unavailable" rfl

end HotelRateIntel
